import Mathlib

/-!
Verification model for the ConsultaSIA health-production-data server.

The definitions below are a shallow embedding of the TypeScript source:
the Drizzle/Postgres tables become Lean structures and lists, the storage
methods of `DatabaseStorage` (server storage module) become pure functions
over an explicit `Db` state, and the Express route handlers become functions
from request data to response values.  JavaScript `Date` values are modelled
as integer codes ordered like the dates they denote; `new Date(string)`
becomes a partial parser where `none` stands for JavaScript's Invalid Date.
-/

namespace ConsultaSIA

/-- Split a character list at each `-`, keeping empty groups. -/
def splitDash : List Char → List (List Char)
  | [] => [[]]
  | c :: rest =>
    match splitDash rest with
    | [] => [[]]
    | g :: gs => if c = '-' then [] :: g :: gs else (c :: g) :: gs

/-- The numeric value of a list of decimal digit characters. -/
def digitsToNat (cs : List Char) : Nat :=
  cs.foldl (fun a c => a * 10 + (c.toNat - 48)) 0

/-- Models JavaScript `new Date(string)` restricted to the ISO `YYYY-MM-DD`
strings the reporting UI submits: a well-formed date string yields an integer
code that is ordered exactly like the date (`y*10000 + m*100 + d`); anything
else yields `none`, standing for JavaScript's Invalid Date (whose time value
is NaN). -/
def jsNewDate (s : String) : Option Int :=
  match splitDash s.toList with
  | [y, m, d] =>
    if y.length == 4 && m.length == 2 && d.length == 2
        && (y ++ m ++ d).all Char.isDigit then
      let mn := digitsToNat m
      let dn := digitsToNat d
      if 1 ≤ mn && mn ≤ 12 && 1 ≤ dn && dn ≤ 31 then
        some ((digitsToNat y : Int) * 10000 + (mn : Int) * 100 + (dn : Int))
      else none
    else none
  | _ => none

/-- A row of the `cbo` table (shared/schema.ts): occupation reference. -/
structure CboRow where
  id : String
  codigo : String
  descricao : String
  status : Bool
  createdAt : Int
  deriving Repr, DecidableEq

/-- A row of the `prestador` table (shared/schema.ts): provider reference. -/
structure PrestadorRow where
  id : String
  codigo : String
  nomeRazaoSocial : String
  cnpjCpf : String
  tipo : String
  status : Bool
  createdAt : Int
  deriving Repr, DecidableEq

/-- A row of the `procedimento` table (shared/schema.ts). -/
structure ProcedimentoRow where
  id : String
  codigo : String
  descricao : String
  valor : String
  complexidade : String
  status : Bool
  createdAt : Int
  deriving Repr, DecidableEq

/-- A row of the `s_rub` table (shared/schema.ts): financing source. -/
structure SRubRow where
  id : String
  codigo : String
  descricao : String
  tipoFinanciamento : String
  status : Bool
  createdAt : Int
  deriving Repr, DecidableEq

/-- A row of the fact table `consulta_prod` (shared/schema.ts).  The four
foreign keys are nullable; `prdDtcomp`/`prdDtreal` are timestamps, modelled
by the same integer codes `jsNewDate` produces. -/
structure ConsultaProdRow where
  id : String
  prdDtcomp : Int
  prdDtreal : Int
  prdCbo : Option String
  prdPrest : Option String
  prdProc : Option String
  prdQtd : Int
  prdVlP : String
  prdRub : Option String
  prdCidpri : Option String
  deriving Repr, DecidableEq

/-- A row of the `users` table (shared/schema.ts). -/
structure UserRow where
  id : String
  username : String
  password : String
  email : Option String
  firstName : Option String
  lastName : Option String
  role : String
  active : Bool
  createdAt : Int
  updatedAt : Int
  deriving Repr, DecidableEq

/-- A row of the `audit_log` table (shared/schema.ts); snapshot payloads are
kept as opaque strings, as the routes store `JSON.stringify` output. -/
structure AuditRow where
  userId : String
  action : String
  tableName : String
  recordId : Option String
  oldValues : Option String
  newValues : Option String
  deriving Repr, DecidableEq

/-- The database state: one list per table. -/
structure Db where
  users : List UserRow := []
  cbos : List CboRow := []
  prestadores : List PrestadorRow := []
  procedimentos : List ProcedimentoRow := []
  srubs : List SRubRow := []
  consulta : List ConsultaProdRow := []
  audit : List AuditRow := []
  deriving Repr

/-- The ad-hoc filters object sent to `GET /api/reports/data`, after
`JSON.parse`: a flat JavaScript object, modelled as an association list from
key to string value.  Unrecognized keys (such as the UI's rich `filter_N`
clause objects) simply sit in the list; `getConsultaProdData` never reads
them. -/
abbrev Filters := List (String × String)

/-- JavaScript property access `filters.k`: the value at key `k`, or the
empty string standing for `undefined` when the key is absent (both are falsy,
which is all the compiler inspects). -/
def fval (f : Filters) (k : String) : String :=
  ((f.find? (fun kv => kv.1 == k)).map (fun kv => kv.2)).getD ""

/-- JavaScript truthiness of a string value: every string but `""` is truthy. -/
def truthy (s : String) : Bool := s != ""

/-- One atomic condition pushed onto `whereConditions` in
`getConsultaProdData`: the four recognized filter keys compile to exactly
these shapes. -/
inductive Cond where
  | gteDtcomp (d : Option Int)
  | lteDtcomp (d : Option Int)
  | eqPrest (v : String)
  | eqProc (v : String)
  deriving Repr, DecidableEq

/-- The `whereConditions` list built by `getConsultaProdData` (storage
module): for each truthy recognized key, push the corresponding condition,
in source order.  Date values go through `jsNewDate` (the source's
`new Date(filters.dateFrom)`), unconditionally and without validation. -/
def buildWhereConditions (f : Filters) : List Cond :=
  (if truthy (fval f "dateFrom") then [Cond.gteDtcomp (jsNewDate (fval f "dateFrom"))] else [])
  ++ (if truthy (fval f "dateTo") then [Cond.lteDtcomp (jsNewDate (fval f "dateTo"))] else [])
  ++ (if truthy (fval f "prestador") then [Cond.eqPrest (fval f "prestador")] else [])
  ++ (if truthy (fval f "procedimento") then [Cond.eqProc (fval f "procedimento")] else [])

/-- The compiled predicate: `and(...whereConditions)` when the list is
non-empty, else `undefined` (no WHERE clause). -/
def compileWhere (f : Filters) : Option (List Cond) :=
  let conds := buildWhereConditions f
  if conds.isEmpty then none else some conds

/-- SQL truth of one condition at a fact row.  A NULL foreign key never
equals a value; a comparison against an Invalid Date is never true. -/
def condHolds (r : ConsultaProdRow) : Cond → Bool
  | Cond.gteDtcomp none => false
  | Cond.gteDtcomp (some d) => d ≤ r.prdDtcomp
  | Cond.lteDtcomp none => false
  | Cond.lteDtcomp (some d) => r.prdDtcomp ≤ d
  | Cond.eqPrest v => r.prdPrest == some v
  | Cond.eqProc v => r.prdProc == some v

/-- Truth of the compiled predicate: no WHERE clause matches every row,
otherwise the conjunction of the conditions. -/
def rowMatches (w : Option (List Cond)) (r : ConsultaProdRow) : Bool :=
  match w with
  | none => true
  | some conds => conds.all (condHolds r)

/-- Whether a condition can be serialized into the SQL query: a date
condition carrying an Invalid Date cannot (the driver renders it as a
garbage timestamp literal which Postgres rejects, so the query errors). -/
def condValid : Cond → Bool
  | Cond.gteDtcomp d => d.isSome
  | Cond.lteDtcomp d => d.isSome
  | Cond.eqPrest _ => true
  | Cond.eqProc _ => true

/-- The nested `cbo` object selected by the report query. -/
structure CboNested where
  id : String
  codigo : String
  descricao : String
  deriving Repr, DecidableEq

/-- The nested `prestador` object selected by the report query. -/
structure PrestadorNested where
  id : String
  codigo : String
  nomeRazaoSocial : String
  deriving Repr, DecidableEq

/-- The nested `procedimento` object selected by the report query. -/
structure ProcedimentoNested where
  id : String
  codigo : String
  descricao : String
  deriving Repr, DecidableEq

/-- The nested `sRub` object selected by the report query. -/
structure SRubNested where
  id : String
  codigo : String
  descricao : String
  deriving Repr, DecidableEq

/-- One row of the denormalized report result (the select list of the data
query in `getConsultaProdData`): fact columns plus four nullable nested
objects from the left joins. -/
structure ReportRow where
  id : String
  prdDtcomp : Int
  prdDtreal : Int
  prdQtd : Int
  prdVlP : String
  prdCidpri : Option String
  cbo : Option CboNested
  prestador : Option PrestadorNested
  procedimento : Option ProcedimentoNested
  sRub : Option SRubNested
  deriving Repr, DecidableEq

/-- The four left joins of the report query: each nested object is looked up
by foreign-key equality, and a NULL or dangling key yields `none`.  Reference
ids are primary keys, so at most one row matches. -/
def joinRow (db : Db) (r : ConsultaProdRow) : ReportRow :=
  { id := r.id
    prdDtcomp := r.prdDtcomp
    prdDtreal := r.prdDtreal
    prdQtd := r.prdQtd
    prdVlP := r.prdVlP
    prdCidpri := r.prdCidpri
    cbo := (db.cbos.find? (fun c => r.prdCbo == some c.id)).map
      (fun c => { id := c.id, codigo := c.codigo, descricao := c.descricao })
    prestador := (db.prestadores.find? (fun p => r.prdPrest == some p.id)).map
      (fun p => { id := p.id, codigo := p.codigo, nomeRazaoSocial := p.nomeRazaoSocial })
    procedimento := (db.procedimentos.find? (fun p => r.prdProc == some p.id)).map
      (fun p => { id := p.id, codigo := p.codigo, descricao := p.descricao })
    sRub := (db.srubs.find? (fun s => r.prdRub == some s.id)).map
      (fun s => { id := s.id, codigo := s.codigo, descricao := s.descricao }) }

/-- The descending competence-date order used by `ORDER BY prd_dtcomp DESC`. -/
def dtcompGE (a b : ConsultaProdRow) : Prop := b.prdDtcomp ≤ a.prdDtcomp

instance : DecidableRel dtcompGE :=
  fun a b => inferInstanceAs (Decidable (b.prdDtcomp ≤ a.prdDtcomp))

instance : IsTotal ConsultaProdRow dtcompGE :=
  ⟨fun a b => (Int.le_total a.prdDtcomp b.prdDtcomp).symm⟩

instance : IsTrans ConsultaProdRow dtcompGE :=
  ⟨fun _ _ _ hab hbc => le_trans hbc hab⟩

/-- `ORDER BY prd_dtcomp DESC`. -/
def sortByDtcompDesc (rs : List ConsultaProdRow) : List ConsultaProdRow :=
  rs.insertionSort dtcompGE

/-- The fact rows matching the compiled predicate (the count query's view,
which joins nothing). -/
def matchingRows (db : Db) (f : Filters) : List ConsultaProdRow :=
  db.consulta.filter (rowMatches (compileWhere f))

/-- The `LIMIT limit OFFSET (page-1)*limit` slice of the ordered matching
rows. -/
def pageSlice (db : Db) (f : Filters) (page limit : Nat) : List ConsultaProdRow :=
  ((sortByDtcompDesc (matchingRows db f)).drop ((page - 1) * limit)).take limit

/-- How a query against this model can fail. -/
inductive DbError where
  | invalidTimestamp
  | uniqueViolation
  | fkViolation
  deriving Repr, DecidableEq

/-- `DatabaseStorage.getConsultaProdData`: compile the filters, run the
joined, ordered, paginated data query and the unpaginated count query over
the same predicate.  If a compiled condition carries an Invalid Date, the
query cannot be executed (Postgres rejects the serialized timestamp) and the
call errors instead. -/
def getConsultaProdData (db : Db) (f : Filters) (page limit : Nat) :
    Except DbError (List ReportRow × Nat) :=
  if (buildWhereConditions f).all condValid then
    Except.ok ((pageSlice db f page limit).map (joinRow db), (matchingRows db f).length)
  else
    Except.error DbError.invalidTimestamp

/-- Response of `GET /api/reports/data`. -/
inductive ReportsDataResp where
  | ok (data : List ReportRow) (total : Nat)
  | serverError (message : String)
  deriving Repr, DecidableEq

/-- HTTP status of a reports-data response. -/
def reportsDataStatus : ReportsDataResp → Nat
  | ReportsDataResp.ok _ _ => 200
  | ReportsDataResp.serverError _ => 500

/-- The `GET /api/reports/data` handler (routes module): call the storage
method; any thrown error is caught and answered with a generic
500 `Internal server error`. -/
def reportsDataHandler (db : Db) (f : Filters) (page limit : Nat) : ReportsDataResp :=
  match getConsultaProdData db f page limit with
  | Except.ok (data, total) => ReportsDataResp.ok data total
  | Except.error _ => ReportsDataResp.serverError "Internal server error"

/-- Case-sensitive substring containment, modelling SQL
`LIKE '%pat%'` for patterns without wildcard characters. -/
def strContains (s pat : String) : Bool :=
  decide (2 ≤ (s.splitOn pat).length)

/-- The insert shape accepted by `POST /api/cbo` after `insertCboSchema`
validation (id and timestamps omitted, status defaulted true). -/
structure InsertCBO where
  codigo : String
  descricao : String
  status : Bool := true
  deriving Repr, DecidableEq

/-- `DatabaseStorage.createCBO` is a bare insert-returning; the `codigo`
column's UNIQUE constraint (shared/schema.ts) makes a duplicate code fail at
the database, modelled here as `uniqueViolation`.  The server-generated id
and `created_at` timestamp are supplied by `newId`/`now`. -/
def createCBO (db : Db) (c : InsertCBO) (newId : String) (now : Int) :
    Except DbError (CboRow × Db) :=
  if db.cbos.any (fun r => r.codigo == c.codigo) then
    Except.error DbError.uniqueViolation
  else
    let row : CboRow :=
      { id := newId, codigo := c.codigo, descricao := c.descricao
        status := c.status, createdAt := now }
    Except.ok (row, { db with cbos := db.cbos ++ [row] })

/-- The descending creation-time order used by `ORDER BY created_at DESC`
on the `cbo` table. -/
def cboCreatedGE (a b : CboRow) : Prop := b.createdAt ≤ a.createdAt

instance : DecidableRel cboCreatedGE :=
  fun a b => inferInstanceAs (Decidable (b.createdAt ≤ a.createdAt))

instance : IsTotal CboRow cboCreatedGE :=
  ⟨fun a b => (Int.le_total a.createdAt b.createdAt).symm⟩

instance : IsTrans CboRow cboCreatedGE :=
  ⟨fun _ _ _ hab hbc => le_trans hbc hab⟩

/-- `DatabaseStorage.getCBOs`: optional substring search over `codigo` and
`descricao` (only when `search` is a truthy string), ordered by creation
time descending, offset/limit paginated, with an unpaginated count. -/
def getCBOs (db : Db) (page limit : Nat) (search : Option String) :
    List CboRow × Nat :=
  let filtered :=
    match search with
    | some s =>
      if truthy s then
        db.cbos.filter (fun (r : CboRow) => strContains r.codigo s || strContains r.descricao s)
      else db.cbos
    | none => db.cbos
  let sorted := filtered.insertionSort cboCreatedGE
  ((sorted.drop ((page - 1) * limit)).take limit, filtered.length)

/-- Response of `POST /api/cbo`. -/
inductive CreateCboResp where
  | created (row : CboRow)
  | badRequest (message : String)
  deriving Repr, DecidableEq

/-- HTTP status of a create-CBO response. -/
def createCboStatus : CreateCboResp → Nat
  | CreateCboResp.created _ => 201
  | CreateCboResp.badRequest _ => 400

/-- The `POST /api/cbo` handler: create, append an audit entry, answer 201
with the new row; any thrown error (the duplicate-code unique violation
included) is caught and answered 400 `Invalid request data`. -/
def postCboRoute (db : Db) (actorId : String) (c : InsertCBO)
    (newId : String) (now : Int) : CreateCboResp × Db :=
  match createCBO db c newId now with
  | Except.ok (row, db1) =>
    (CreateCboResp.created row,
      { db1 with audit := db1.audit ++
        [{ userId := actorId, action := "create", tableName := "cbo"
           recordId := some row.id, oldValues := none, newValues := some row.codigo }] })
  | Except.error _ => (CreateCboResp.badRequest "Invalid request data", db)

/-- `DatabaseStorage.deletePrestador`: delete rows whose id matches and
report `rowCount > 0`.  The statement runs against the
`consulta_prod.prd_prest → prestador.id` foreign-key constraint
(shared/schema.ts), which carries no ON DELETE action: deleting a provider
still referenced by a fact row makes the database throw a foreign-key
violation instead of removing anything. -/
def deletePrestador (db : Db) (id : String) : Except DbError (Bool × Db) :=
  if db.consulta.any (fun r => r.prdPrest == some id) then
    Except.error DbError.fkViolation
  else
    let rowCount := (db.prestadores.filter (fun p => p.id == id)).length
    Except.ok (decide (0 < rowCount),
      { db with prestadores := db.prestadores.filter (fun p => p.id != id) })

/-- Response of `DELETE /api/prestador/:id`. -/
inductive DeleteResp where
  | noContent
  | notFound (message : String)
  | serverError (message : String)
  deriving Repr, DecidableEq

/-- HTTP status of a delete response. -/
def deleteRespStatus : DeleteResp → Nat
  | DeleteResp.noContent => 204
  | DeleteResp.notFound _ => 404
  | DeleteResp.serverError _ => 500

/-- The `DELETE /api/prestador/:id` handler: read the old row for the audit
snapshot, delete, answer 404 `Prestador not found` when nothing was removed,
else append an audit entry and answer 204; a thrown error (the foreign-key
violation included) is caught and answered 500 `Internal server error`. -/
def deletePrestadorRoute (db : Db) (actorId id : String) : DeleteResp × Db :=
  let old := db.prestadores.find? (fun p => p.id == id)
  match deletePrestador db id with
  | Except.error _ => (DeleteResp.serverError "Internal server error", db)
  | Except.ok res =>
    if res.1 then
      (DeleteResp.noContent,
        { res.2 with audit := res.2.audit ++
          [{ userId := actorId, action := "delete", tableName := "prestador"
             recordId := some id, oldValues := old.map (fun p => p.codigo)
             newValues := none }] })
    else
      (DeleteResp.notFound "Prestador not found", res.2)

/-- The JWT payload signed at login: `{ id, username, role }`. -/
structure JwtPayload where
  id : String
  username : String
  role : String
  deriving Repr, DecidableEq

/-- A signed token, modelled structurally: the payload, the expiry instant
in milliseconds, and the secret it was signed with. -/
structure Jwt where
  payload : JwtPayload
  expMs : Int
  secret : String
  deriving Repr, DecidableEq

/-- `jwt.sign(payload, secret, expiresIn)`. -/
def jwtSign (p : JwtPayload) (secret : String) (nowMs expiresInMs : Int) : Jwt :=
  { payload := p, expMs := nowMs + expiresInMs, secret := secret }

/-- `jwt.verify(token, secret)`: succeeds exactly when the token was signed
with this secret and has not expired. -/
def jwtVerify (t : Jwt) (secret : String) (nowMs : Int) : Option JwtPayload :=
  if t.secret == secret && nowMs < t.expMs then some t.payload else none

/-- Outcome of the `authenticateToken` middleware. -/
inductive AuthOutcome where
  | rejected (status : Nat) (message : String)
  | authedAs (p : JwtPayload)
  deriving Repr, DecidableEq

/-- The `authenticateToken` middleware (routes module): a request without a
bearer token is answered 401 `Access token required`; a present token that
fails `jwt.verify` (bad signature or expired) is answered
403 `Invalid token`; otherwise the verified payload becomes `req.user`. -/
def authenticateToken (token : Option Jwt) (secret : String) (nowMs : Int) :
    AuthOutcome :=
  match token with
  | none => AuthOutcome.rejected 401 "Access token required"
  | some t =>
    match jwtVerify t secret nowMs with
    | none => AuthOutcome.rejected 403 "Invalid token"
    | some p => AuthOutcome.authedAs p

/-- The `requireAdmin` middleware: any authenticated principal whose role is
not `admin` is answered 403 `Admin access required`. -/
def requireAdmin (p : JwtPayload) : Option (Nat × String) :=
  if p.role != "admin" then some (403, "Admin access required") else none

/-- Models `bcrypt.hash(p, 10)` deterministically: an injective encoding
prefixed with the bcrypt version/cost marker, so a hash is never equal to
any plaintext of a different length (and in particular never to its own
preimage). -/
def bcryptHash (p : String) : String := "$2b$10$" ++ p

/-- Models `bcrypt.compare(p, h)`: true exactly when `h` is the hash of
`p`. -/
def bcryptCompare (p h : String) : Bool := bcryptHash p == h

/-- The insert shape accepted by `POST /api/users` after `insertUserSchema`
validation. -/
structure InsertUser where
  username : String
  password : String
  email : Option String := none
  firstName : Option String := none
  lastName : Option String := none
  role : String := "operator"
  active : Bool := true
  deriving Repr, DecidableEq

/-- `DatabaseStorage.createUser`: hash the password with bcrypt, insert, and
return the stored row (server-generated id and timestamps supplied by
`newId`/`now`). -/
def createUser (db : Db) (u : InsertUser) (newId : String) (now : Int) :
    UserRow × Db :=
  let row : UserRow :=
    { id := newId, username := u.username, password := bcryptHash u.password
      email := u.email, firstName := u.firstName, lastName := u.lastName
      role := u.role, active := u.active, createdAt := now, updatedAt := now }
  (row, { db with users := db.users ++ [row] })

/-- The partial update shape accepted by `DatabaseStorage.updateUser`
(`Partial<InsertUser>`); `none` models an absent field. -/
structure UpdateUser where
  username : Option String := none
  password : Option String := none
  email : Option (Option String) := none
  role : Option String := none
  active : Option Bool := none
  deriving Repr, DecidableEq

/-- `DatabaseStorage.updateUser` applied to one row: the password is
re-hashed only when it is a truthy value (`if updateData.password`), so a
supplied empty-string password bypasses hashing and is stored as given;
every supplied field overwrites, `updatedAt` is refreshed. -/
def applyUserUpdate (u : UpdateUser) (now : Int) (row : UserRow) : UserRow :=
  { row with
    username := u.username.getD row.username
    password :=
      match u.password with
      | none => row.password
      | some p => if truthy p then bcryptHash p else p
    email := u.email.getD row.email
    role := u.role.getD row.role
    active := u.active.getD row.active
    updatedAt := now }

/-- `DatabaseStorage.updateUser`: update the row with the given id (if any)
and return the updated row, or `none` when the id does not exist. -/
def updateUser (db : Db) (id : String) (u : UpdateUser) (now : Int) :
    Option UserRow × Db :=
  let users := db.users.map (fun row => if row.id == id then applyUserUpdate u now row else row)
  ((db.users.find? (fun row => row.id == id)).map (applyUserUpdate u now),
   { db with users := users })

/-- One JSON field of a response body: key and rendered value. -/
abbrev JsonField := String × String

/-- Response of `POST /api/auth/login`. -/
inductive LoginResp where
  | ok (token : Jwt) (body : List JsonField)
  | unauthorized (message : String)
  | badRequest (message : String)
  deriving Repr, DecidableEq

/-- HTTP status of a login response. -/
def loginStatus : LoginResp → Nat
  | LoginResp.ok _ _ => 200
  | LoginResp.unauthorized _ => 401
  | LoginResp.badRequest _ => 400

/-- The user object returned alongside the token at login. -/
def loginUserBody (u : UserRow) : List JsonField :=
  [("id", u.id), ("username", u.username), ("email", u.email.getD "null"),
   ("firstName", u.firstName.getD "null"), ("lastName", u.lastName.getD "null"),
   ("role", u.role)]

/-- 24 hours in milliseconds, the `expiresIn: 24h` of the login handler. -/
def ms24h : Int := 86400000

/-- The `POST /api/auth/login` handler: `loginSchema` requires non-empty
username and password (a `ZodError` is caught and answered 400); an unknown
username, an inactive account, and a failed bcrypt comparison are all
answered 401 `Invalid credentials`; otherwise a 24-hour JWT carrying
`{ id, username, role }` is signed and returned with the public profile. -/
def loginRoute (db : Db) (username password secret : String) (nowMs : Int) :
    LoginResp :=
  if username == "" || password == "" then
    LoginResp.badRequest "Invalid request data"
  else
    match db.users.find? (fun u => u.username == username) with
    | none => LoginResp.unauthorized "Invalid credentials"
    | some user =>
      if !user.active then LoginResp.unauthorized "Invalid credentials"
      else if bcryptCompare password user.password then
        LoginResp.ok
          (jwtSign { id := user.id, username := user.username, role := user.role }
            secret nowMs ms24h)
          (loginUserBody user)
      else LoginResp.unauthorized "Invalid credentials"

/-- A storage-level user operation, for stating the password invariant over
operation sequences. -/
inductive UserOp where
  | create (u : InsertUser) (newId : String) (now : Int)
  | update (id : String) (u : UpdateUser) (now : Int)
  deriving Repr

/-- Run a sequence of user operations against a database state. -/
def runUserOps (ops : List UserOp) (db : Db) : Db :=
  match ops with
  | [] => db
  | UserOp.create u newId now :: rest => runUserOps rest (createUser db u newId now).2
  | UserOp.update id u now :: rest => runUserOps rest (updateUser db id u now).2

/-! Concrete sample data, used to instantiate the theorems below at
executable inputs. -/

/-- A sample filters object: two recognized keys, one unrecognized rich
clause key. -/
def sampleFiltersA : Filters :=
  [("dateFrom", "2024-01-01"), ("prestador", "p1"), ("filter_0", "ignored")]

/-- A second sample filters object agreeing with `sampleFiltersA` on the
four recognized keys but differing elsewhere. -/
def sampleFiltersB : Filters :=
  [("prestador", "p1"), ("dateFrom", "2024-01-01"), ("other", "x")]

/-- A sample fact row matched by `sampleFiltersA`. -/
def sampleRow1 : ConsultaProdRow :=
  { id := "r1", prdDtcomp := 20240315, prdDtreal := 20240316, prdCbo := none
    prdPrest := some "p1", prdProc := some "x1", prdQtd := 2, prdVlP := "20.00"
    prdRub := none, prdCidpri := none }

/-- A second sample fact row, also matched by `sampleFiltersA`, with a
dangling procedure key. -/
def sampleRow2 : ConsultaProdRow :=
  { id := "r2", prdDtcomp := 20240101, prdDtreal := 20240102, prdCbo := none
    prdPrest := some "p1", prdProc := some "nope", prdQtd := 1, prdVlP := "10.00"
    prdRub := none, prdCidpri := some "A00" }

/-- A third sample fact row, not matched by `sampleFiltersA`. -/
def sampleRow3 : ConsultaProdRow :=
  { id := "r3", prdDtcomp := 20231220, prdDtreal := 20231220, prdCbo := none
    prdPrest := some "p2", prdProc := none, prdQtd := 3, prdVlP := "30.00"
    prdRub := none, prdCidpri := none }

/-- A sample provider row. -/
def samplePrest : PrestadorRow :=
  { id := "p1", codigo := "001", nomeRazaoSocial := "Hospital Municipal"
    cnpjCpf := "12.345.678/0001-90", tipo := "pessoa_juridica", status := true
    createdAt := 5 }

/-- A sample database state with one provider and three fact rows. -/
def sampleDb : Db :=
  { prestadores := [samplePrest], consulta := [sampleRow1, sampleRow2, sampleRow3] }

/-- A sample occupation row. -/
def sampleCbo : CboRow :=
  { id := "c1", codigo := "225125", descricao := "Medico clinico", status := true, createdAt := 1 }

/-- A sample database state holding one occupation, for duplicate-code
scenarios. -/
def dupDb : Db := { cbos := [sampleCbo] }

/-- A sample database state where provider `p1` exists and no fact row
references it (the only fact row points at `p2`), so deleting `p1` is
permitted by the foreign-key constraint. -/
def freeDb : Db := { prestadores := [samplePrest], consulta := [sampleRow3] }

/-- A sample non-admin principal. -/
def sampleUserPayload : JwtPayload := { id := "u1", username := "alice", role := "operator" }

/-- A token signed with the server secret but already expired at time 100. -/
def expiredToken : Jwt :=
  { payload := sampleUserPayload, expMs := 50, secret := "your-secret-key" }

/-- A sample account-creation payload. -/
def sampleInsertUser : InsertUser := { username := "bob", password := "pw123" }

/-- A one-user database created through `createUser` (so the stored password
is hashed), used by the authentication scenarios. -/
def loginDb : Db :=
  (createUser {} { username := "alice", password := "secret1" } "u1" 0).2

/-- The stored row of the `alice` account in `loginDb`. -/
def aliceRow : UserRow :=
  (createUser {} { username := "alice", password := "secret1" } "u1" 0).1

/-
Theorems.
-/

/-- C1: the predicate compiled by `getConsultaProdData` is the AND of
exactly one predicate per recognized, present-and-non-empty key
(`dateFrom` → competence date ≥ value, `dateTo` → competence date ≤ value,
`prestador` → provider key = value, `procedimento` → procedure key = value);
other keys contribute nothing (filters agreeing on the four keys compile
identically); with none of the four present the compiled predicate is the
match-all filter. -/
theorem c1_filter_compilation (f g : Filters) (r : ConsultaProdRow)
    (hagree : fval f "dateFrom" = fval g "dateFrom" ∧ fval f "dateTo" = fval g "dateTo" ∧
      fval f "prestador" = fval g "prestador" ∧ fval f "procedimento" = fval g "procedimento") :
    compileWhere f = compileWhere g ∧
    (rowMatches (compileWhere f) r = true ↔
      ((truthy (fval f "dateFrom") = true →
          ∃ d, jsNewDate (fval f "dateFrom") = some d ∧ d ≤ r.prdDtcomp) ∧
       (truthy (fval f "dateTo") = true →
          ∃ d, jsNewDate (fval f "dateTo") = some d ∧ r.prdDtcomp ≤ d) ∧
       (truthy (fval f "prestador") = true → r.prdPrest = some (fval f "prestador")) ∧
       (truthy (fval f "procedimento") = true → r.prdProc = some (fval f "procedimento")))) ∧
    ((truthy (fval f "dateFrom") = false ∧ truthy (fval f "dateTo") = false ∧
      truthy (fval f "prestador") = false ∧ truthy (fval f "procedimento") = false) →
      compileWhere f = none ∧ ∀ r2 : ConsultaProdRow, rowMatches (compileWhere f) r2 = true) := by
  obtain ⟨h1, h2, h3, h4⟩ := hagree
  refine ⟨?_, ?_, ?_⟩
  · simp only [compileWhere, buildWhereConditions, h1, h2, h3, h4]
  · cases hb1 : truthy (fval f "dateFrom") <;> cases hb2 : truthy (fval f "dateTo")
      <;> cases hb3 : truthy (fval f "prestador") <;> cases hb4 : truthy (fval f "procedimento")
      <;> cases hj1 : jsNewDate (fval f "dateFrom") <;> cases hj2 : jsNewDate (fval f "dateTo")
      <;> simp [compileWhere, buildWhereConditions, hb1, hb2, hb3, hb4, hj1, hj2,
            rowMatches, condHolds]
  · rintro ⟨hb1, hb2, hb3, hb4⟩
    constructor
    · simp [compileWhere, buildWhereConditions, hb1, hb2, hb3, hb4]
    · intro r2
      simp [compileWhere, buildWhereConditions, hb1, hb2, hb3, hb4, rowMatches]

/-- Witness for C1: the hypotheses hold and the conclusion is realized at
`sampleFiltersA`/`sampleFiltersB`/`sampleRow1`. -/
theorem c1_filter_compilation_witness :
    (fval sampleFiltersA "dateFrom" = fval sampleFiltersB "dateFrom" ∧
     fval sampleFiltersA "dateTo" = fval sampleFiltersB "dateTo" ∧
     fval sampleFiltersA "prestador" = fval sampleFiltersB "prestador" ∧
     fval sampleFiltersA "procedimento" = fval sampleFiltersB "procedimento") ∧
    (compileWhere sampleFiltersA = compileWhere sampleFiltersB ∧
     (rowMatches (compileWhere sampleFiltersA) sampleRow1 = true ↔
       ((truthy (fval sampleFiltersA "dateFrom") = true →
           ∃ d, jsNewDate (fval sampleFiltersA "dateFrom") = some d ∧ d ≤ sampleRow1.prdDtcomp) ∧
        (truthy (fval sampleFiltersA "dateTo") = true →
           ∃ d, jsNewDate (fval sampleFiltersA "dateTo") = some d ∧ sampleRow1.prdDtcomp ≤ d) ∧
        (truthy (fval sampleFiltersA "prestador") = true →
           sampleRow1.prdPrest = some (fval sampleFiltersA "prestador")) ∧
        (truthy (fval sampleFiltersA "procedimento") = true →
           sampleRow1.prdProc = some (fval sampleFiltersA "procedimento")))) ∧
     ((truthy (fval sampleFiltersA "dateFrom") = false ∧
       truthy (fval sampleFiltersA "dateTo") = false ∧
       truthy (fval sampleFiltersA "prestador") = false ∧
       truthy (fval sampleFiltersA "procedimento") = false) →
       compileWhere sampleFiltersA = none ∧
       ∀ r2 : ConsultaProdRow, rowMatches (compileWhere sampleFiltersA) r2 = true)) :=
  ⟨⟨by decide, by decide, by decide, by decide⟩,
   c1_filter_compilation sampleFiltersA sampleFiltersB sampleRow1
     ⟨by decide, by decide, by decide, by decide⟩⟩

/-- C2: for a compilable predicate, `page ≥ 1` and `limit > 0`,
`getConsultaProdData` returns the matching rows ordered by competence date
descending and sliced to the index range `[(page-1)*limit, page*limit)`,
together with `total` equal to the full matching count; `total` is the same
for every page, and a page past the last matching row yields an empty data
array with that same total. -/
theorem c2_report_pagination (db : Db) (f : Filters) (page limit : Nat)
    (hpage : 1 ≤ page) (hlimit : 0 < limit)
    (hvalid : (buildWhereConditions f).all condValid = true) :
    ∃ data total, getConsultaProdData db f page limit = Except.ok (data, total) ∧
      total = (matchingRows db f).length ∧
      data = (pageSlice db f page limit).map (joinRow db) ∧
      (∀ i, i < limit →
        data[i]? = ((sortByDtcompDesc (matchingRows db f))[(page - 1) * limit + i]?).map (joinRow db)) ∧
      data.length ≤ limit ∧
      List.Pairwise (fun a b : ReportRow => b.prdDtcomp ≤ a.prdDtcomp) data ∧
      (∀ page2, ∃ data2, getConsultaProdData db f page2 limit = Except.ok (data2, total)) ∧
      (total ≤ (page - 1) * limit → data = []) := by
  refine ⟨(pageSlice db f page limit).map (joinRow db), (matchingRows db f).length,
    ?_, rfl, rfl, ?_, ?_, ?_, ?_, ?_⟩
  · simp [getConsultaProdData, hvalid]
  · intro i hi
    simp only [pageSlice, List.getElem?_map, List.getElem?_take_of_lt hi,
      List.getElem?_drop]
  · calc ((pageSlice db f page limit).map (joinRow db)).length
        = (pageSlice db f page limit).length := List.length_map _ _
      _ ≤ limit := by
          simp only [pageSlice, List.length_take]
          exact Nat.min_le_left _ _
  · have hsorted : List.Pairwise dtcompGE (sortByDtcompDesc (matchingRows db f)) :=
      List.sorted_insertionSort dtcompGE (matchingRows db f)
    have hslice : List.Pairwise dtcompGE (pageSlice db f page limit) :=
      List.Pairwise.sublist
        ((List.take_sublist _ _).trans (List.drop_sublist _ _)) hsorted
    exact List.pairwise_map.mpr (hslice.imp (fun h => h))
  · intro page2
    exact ⟨(pageSlice db f page2 limit).map (joinRow db), by simp [getConsultaProdData, hvalid]⟩
  · intro hpast
    have hlen : (sortByDtcompDesc (matchingRows db f)).length ≤ (page - 1) * limit := by
      simpa [sortByDtcompDesc, List.length_insertionSort] using hpast
    simp [pageSlice, List.drop_eq_nil_of_le hlen]

/-- Witness for C2 at the sample database: page 2 of size 1 over the two
matching rows. -/
theorem c2_report_pagination_witness :
    (1 ≤ 2 ∧ 0 < 1 ∧ (buildWhereConditions sampleFiltersA).all condValid = true) ∧
    (∃ data total, getConsultaProdData sampleDb sampleFiltersA 2 1 = Except.ok (data, total) ∧
      total = (matchingRows sampleDb sampleFiltersA).length ∧
      data = (pageSlice sampleDb sampleFiltersA 2 1).map (joinRow sampleDb) ∧
      (∀ i, i < 1 →
        data[i]? = ((sortByDtcompDesc (matchingRows sampleDb sampleFiltersA))[(2 - 1) * 1 + i]?).map (joinRow sampleDb)) ∧
      data.length ≤ 1 ∧
      List.Pairwise (fun a b : ReportRow => b.prdDtcomp ≤ a.prdDtcomp) data ∧
      (∀ page2, ∃ data2, getConsultaProdData sampleDb sampleFiltersA page2 1 = Except.ok (data2, total)) ∧
      (total ≤ (2 - 1) * 1 → data = [])) :=
  ⟨⟨by decide, by decide, by decide⟩,
   c2_report_pagination sampleDb sampleFiltersA 2 1 (by decide) (by decide) (by decide)⟩

/-- C3: every fact row of the result slice appears in `data` regardless of
its foreign keys — all four joins are left joins, so a null or dangling key
yields a `none` nested object instead of dropping the row or shrinking the
total. -/
theorem c3_left_joins (db : Db) (f : Filters) (page limit : Nat)
    (hvalid : (buildWhereConditions f).all condValid = true)
    (r : ConsultaProdRow) (hmem : r ∈ pageSlice db f page limit) :
    ∃ data total, getConsultaProdData db f page limit = Except.ok (data, total) ∧
      joinRow db r ∈ data ∧
      total = (matchingRows db f).length ∧
      ((r.prdCbo = none ∨ ∀ c ∈ db.cbos, some c.id ≠ r.prdCbo) →
        (joinRow db r).cbo = none) ∧
      ((r.prdPrest = none ∨ ∀ p ∈ db.prestadores, some p.id ≠ r.prdPrest) →
        (joinRow db r).prestador = none) ∧
      ((r.prdProc = none ∨ ∀ p ∈ db.procedimentos, some p.id ≠ r.prdProc) →
        (joinRow db r).procedimento = none) ∧
      ((r.prdRub = none ∨ ∀ s ∈ db.srubs, some s.id ≠ r.prdRub) →
        (joinRow db r).sRub = none) := by
  refine ⟨(pageSlice db f page limit).map (joinRow db), (matchingRows db f).length,
    by simp [getConsultaProdData, hvalid], List.mem_map_of_mem _ hmem, rfl, ?_, ?_, ?_, ?_⟩
  · intro h
    have : db.cbos.find? (fun c => r.prdCbo == some c.id) = none := by
      rw [List.find?_eq_none]
      intro c hc
      rcases h with h | h
      · simp [h]
      · simp only [beq_iff_eq]
        intro heq
        exact h c hc heq.symm
    simp [joinRow, this]
  · intro h
    have : db.prestadores.find? (fun p => r.prdPrest == some p.id) = none := by
      rw [List.find?_eq_none]
      intro p hp
      rcases h with h | h
      · simp [h]
      · simp only [beq_iff_eq]
        intro heq
        exact h p hp heq.symm
    simp [joinRow, this]
  · intro h
    have : db.procedimentos.find? (fun p => r.prdProc == some p.id) = none := by
      rw [List.find?_eq_none]
      intro p hp
      rcases h with h | h
      · simp [h]
      · simp only [beq_iff_eq]
        intro heq
        exact h p hp heq.symm
    simp [joinRow, this]
  · intro h
    have : db.srubs.find? (fun s => r.prdRub == some s.id) = none := by
      rw [List.find?_eq_none]
      intro s hs
      rcases h with h | h
      · simp [h]
      · simp only [beq_iff_eq]
        intro heq
        exact h s hs heq.symm
    simp [joinRow, this]

/-- Witness for C3: `sampleRow2` has a dangling procedure key and a null
occupation key, yet appears in page 1 of the sample report. -/
theorem c3_left_joins_witness :
    ((buildWhereConditions sampleFiltersA).all condValid = true ∧
     sampleRow2 ∈ pageSlice sampleDb sampleFiltersA 1 50) ∧
    (∃ data total, getConsultaProdData sampleDb sampleFiltersA 1 50 = Except.ok (data, total) ∧
      joinRow sampleDb sampleRow2 ∈ data ∧
      total = (matchingRows sampleDb sampleFiltersA).length ∧
      ((sampleRow2.prdCbo = none ∨ ∀ c ∈ sampleDb.cbos, some c.id ≠ sampleRow2.prdCbo) →
        (joinRow sampleDb sampleRow2).cbo = none) ∧
      ((sampleRow2.prdPrest = none ∨ ∀ p ∈ sampleDb.prestadores, some p.id ≠ sampleRow2.prdPrest) →
        (joinRow sampleDb sampleRow2).prestador = none) ∧
      ((sampleRow2.prdProc = none ∨ ∀ p ∈ sampleDb.procedimentos, some p.id ≠ sampleRow2.prdProc) →
        (joinRow sampleDb sampleRow2).procedimento = none) ∧
      ((sampleRow2.prdRub = none ∨ ∀ s ∈ sampleDb.srubs, some s.id ≠ sampleRow2.prdRub) →
        (joinRow sampleDb sampleRow2).sRub = none)) :=
  ⟨⟨by decide, by decide⟩,
   c3_left_joins sampleDb sampleFiltersA 1 50 (by decide) sampleRow2 (by decide)⟩

/-- The compiled condition list is fully serializable exactly when each
present date filter parses to a valid date. -/
theorem allValid_iff (f : Filters) :
    (buildWhereConditions f).all condValid = true ↔
      ((truthy (fval f "dateFrom") = true → (jsNewDate (fval f "dateFrom")).isSome = true) ∧
       (truthy (fval f "dateTo") = true → (jsNewDate (fval f "dateTo")).isSome = true)) := by
  cases hb1 : truthy (fval f "dateFrom") <;> cases hb2 : truthy (fval f "dateTo")
    <;> cases hb3 : truthy (fval f "prestador") <;> cases hb4 : truthy (fval f "procedimento")
    <;> simp [buildWhereConditions, hb1, hb2, hb3, hb4, condValid]

/-- C4 counterexample: a malformed `dateFrom` does not produce a
`ValidationError` naming the field — the report route answers a generic
500 `Internal server error`. -/
theorem c4_counterexample :
    reportsDataHandler sampleDb [("dateFrom", "not-a-date")] 1 50 =
        ReportsDataResp.serverError "Internal server error" ∧
      reportsDataStatus (reportsDataHandler sampleDb [("dateFrom", "not-a-date")] 1 50) = 500 ∧
      (500 : Nat) ≠ 400 := by
  refine ⟨by decide, by decide, by decide⟩

/-- C4 (amended): the filter-compilation layer performs no validation at
all — every input compiles; a well-formed input also executes without
error, while a present-but-malformed `dateFrom`/`dateTo` makes the query
itself fail, which the route surfaces as a generic 500
`Internal server error` that names no field. -/
theorem c4_no_validation_layer (db : Db) (f : Filters) (page limit : Nat) :
    (((truthy (fval f "dateFrom") = true → (jsNewDate (fval f "dateFrom")).isSome = true) ∧
      (truthy (fval f "dateTo") = true → (jsNewDate (fval f "dateTo")).isSome = true)) →
      ∃ data total, reportsDataHandler db f page limit = ReportsDataResp.ok data total) ∧
    ((((truthy (fval f "dateFrom") = true ∧ jsNewDate (fval f "dateFrom") = none) ∨
       (truthy (fval f "dateTo") = true ∧ jsNewDate (fval f "dateTo") = none))) →
      reportsDataHandler db f page limit = ReportsDataResp.serverError "Internal server error" ∧
      reportsDataStatus (reportsDataHandler db f page limit) = 500) := by
  constructor
  · intro h
    have hvalid : (buildWhereConditions f).all condValid = true := (allValid_iff f).mpr h
    exact ⟨(pageSlice db f page limit).map (joinRow db), (matchingRows db f).length,
      by simp [reportsDataHandler, getConsultaProdData, hvalid]⟩
  · intro h
    have hvalid : (buildWhereConditions f).all condValid = false := by
      cases hall : (buildWhereConditions f).all condValid
      · rfl
      · exfalso
        have := (allValid_iff f).mp hall
        rcases h with ⟨ht, hn⟩ | ⟨ht, hn⟩
        · have := this.1 ht
          rw [hn] at this
          exact Bool.false_ne_true this
        · have := this.2 ht
          rw [hn] at this
          exact Bool.false_ne_true this
    constructor
    · simp [reportsDataHandler, getConsultaProdData, hvalid]
    · simp [reportsDataHandler, getConsultaProdData, hvalid, reportsDataStatus]

/-- Witness for C4 (amended): a well-formed filter executes, and the
malformed filter from the counterexample input is answered 500. -/
theorem c4_no_validation_layer_witness :
    (((truthy (fval sampleFiltersA "dateFrom") = true →
        (jsNewDate (fval sampleFiltersA "dateFrom")).isSome = true) ∧
      (truthy (fval sampleFiltersA "dateTo") = true →
        (jsNewDate (fval sampleFiltersA "dateTo")).isSome = true)) ∧
     ∃ data total,
       reportsDataHandler sampleDb sampleFiltersA 1 50 = ReportsDataResp.ok data total) ∧
    (((truthy (fval ([("dateTo", "junk")] : Filters) "dateFrom") = true ∧
        jsNewDate (fval ([("dateTo", "junk")] : Filters) "dateFrom") = none) ∨
      (truthy (fval ([("dateTo", "junk")] : Filters) "dateTo") = true ∧
        jsNewDate (fval ([("dateTo", "junk")] : Filters) "dateTo") = none)) ∧
     reportsDataHandler sampleDb [("dateTo", "junk")] 1 50 =
       ReportsDataResp.serverError "Internal server error" ∧
     reportsDataStatus (reportsDataHandler sampleDb [("dateTo", "junk")] 1 50) = 500) :=
  ⟨⟨⟨by decide, by decide⟩,
    (c4_no_validation_layer sampleDb sampleFiltersA 1 50).1 ⟨by decide, by decide⟩⟩,
   ⟨Or.inr ⟨by decide, by decide⟩,
    (c4_no_validation_layer sampleDb [("dateTo", "junk")] 1 50).2
      (Or.inr ⟨by decide, by decide⟩)⟩⟩

/-- Whatever branch a permitted delete takes, the resulting provider table
is the filtered one, and the fact table is untouched. -/
theorem deletePrestador_ok_shape (db : Db) (id : String)
    (hnoref : db.consulta.any (fun r => r.prdPrest == some id) = false) :
    deletePrestador db id =
      Except.ok (decide (0 < (db.prestadores.filter (fun p => p.id == id)).length),
        { db with prestadores := db.prestadores.filter (fun p => p.id != id) }) := by
  simp [deletePrestador, hnoref]

/-- A successful storage delete makes the route answer 204 No Content and
commit the filtered provider table, leaving the fact table unchanged. -/
theorem deleteRoute_pos (db : Db) (actorId id : String)
    (hnoref : db.consulta.any (fun r => r.prdPrest == some id) = false)
    (hcnt : 0 < (db.prestadores.filter (fun p => p.id == id)).length) :
    (deletePrestadorRoute db actorId id).1 = DeleteResp.noContent ∧
    (deletePrestadorRoute db actorId id).2.prestadores =
      db.prestadores.filter (fun p => p.id != id) ∧
    (deletePrestadorRoute db actorId id).2.consulta = db.consulta := by
  have hdel := deletePrestador_ok_shape db id hnoref
  refine ⟨?_, ?_, ?_⟩ <;>
    simp [deletePrestadorRoute, hdel, hcnt]

/-- A permitted no-op storage delete makes the route answer 404
`Prestador not found`, with the (unchanged) filtered provider table. -/
theorem deleteRoute_neg (db : Db) (actorId id : String)
    (hnoref : db.consulta.any (fun r => r.prdPrest == some id) = false)
    (hcnt : (db.prestadores.filter (fun p => p.id == id)).length = 0) :
    (deletePrestadorRoute db actorId id).1 = DeleteResp.notFound "Prestador not found" ∧
    (deletePrestadorRoute db actorId id).2.prestadores =
      db.prestadores.filter (fun p => p.id != id) := by
  have hdel := deletePrestador_ok_shape db id hnoref
  constructor <;>
    simp [deletePrestadorRoute, hdel, hcnt]

/-- C5 counterexample: the first delete of an existing, referenced provider
does not report success — `p1` exists in `sampleDb` but its fact rows
reference it, so the delete throws a foreign-key violation and the route
answers 500 `Internal server error`, not 204. -/
theorem c5_counterexample :
    (∃ p ∈ sampleDb.prestadores, p.id = "p1") ∧
    deletePrestador sampleDb "p1" = Except.error DbError.fkViolation ∧
    deletePrestadorRoute sampleDb "u1" "p1" =
      (DeleteResp.serverError "Internal server error", sampleDb) ∧
    deleteRespStatus (deletePrestadorRoute sampleDb "u1" "p1").1 = 500 ∧
    (500 : Nat) ≠ 204 :=
  ⟨⟨samplePrest, by decide, by decide⟩, rfl, rfl, by decide, by decide⟩

/-- C5 (amended): for a provider id not referenced by any fact row, delete
is idempotent and reports whether a row was removed — the first delete of
an existing provider removes it and answers true / 204; a second delete of
the same id removes nothing and answers false / 404 `Prestador not found`;
neither call is an error and the second leaves the table unchanged.
Deleting a provider still referenced by a ProductionRecord row instead
fails with a foreign-key violation surfaced as a 500 internal error. -/
theorem c5_delete_idempotent (db : Db) (actorId id : String)
    (hex : ∃ p ∈ db.prestadores, p.id = id)
    (hfree : ∀ r ∈ db.consulta, r.prdPrest ≠ some id) :
    (∃ db1, deletePrestador db id = Except.ok (true, db1)) ∧
    (deletePrestadorRoute db actorId id).1 = DeleteResp.noContent ∧
    deleteRespStatus (deletePrestadorRoute db actorId id).1 = 204 ∧
    (∀ p ∈ (deletePrestadorRoute db actorId id).2.prestadores, p.id ≠ id) ∧
    (∃ db2, deletePrestador (deletePrestadorRoute db actorId id).2 id =
      Except.ok (false, db2)) ∧
    (deletePrestadorRoute (deletePrestadorRoute db actorId id).2 actorId id).1 =
      DeleteResp.notFound "Prestador not found" ∧
    deleteRespStatus
      (deletePrestadorRoute (deletePrestadorRoute db actorId id).2 actorId id).1 = 404 ∧
    (deletePrestadorRoute (deletePrestadorRoute db actorId id).2 actorId id).2.prestadores =
      (deletePrestadorRoute db actorId id).2.prestadores := by
  obtain ⟨p, hp, hpid⟩ := hex
  have hnoref : db.consulta.any (fun r => r.prdPrest == some id) = false := by
    rw [List.any_eq_false]
    intro r hr
    simpa using hfree r hr
  have hmem : p ∈ db.prestadores.filter (fun q => q.id == id) :=
    List.mem_filter.mpr ⟨hp, by simp [hpid]⟩
  have hcnt : 0 < (db.prestadores.filter (fun q => q.id == id)).length :=
    List.length_pos.mpr (List.ne_nil_of_mem hmem)
  obtain ⟨hresp1, hprest1, hcons1⟩ := deleteRoute_pos db actorId id hnoref hcnt
  have hclean : ∀ q ∈ (deletePrestadorRoute db actorId id).2.prestadores, q.id ≠ id := by
    intro q hq
    rw [hprest1] at hq
    have := (List.mem_filter.mp hq).2
    simpa using this
  have hnoref2 : (deletePrestadorRoute db actorId id).2.consulta.any
      (fun r => r.prdPrest == some id) = false := by
    rw [hcons1]
    exact hnoref
  have hnil : (deletePrestadorRoute db actorId id).2.prestadores.filter
      (fun q => q.id == id) = [] := by
    rw [List.filter_eq_nil_iff]
    intro q hq
    simpa using hclean q hq
  have hcnt2 : ((deletePrestadorRoute db actorId id).2.prestadores.filter
      (fun q => q.id == id)).length = 0 := by
    rw [hnil]
    rfl
  have hself : (deletePrestadorRoute db actorId id).2.prestadores.filter
      (fun q => q.id != id) = (deletePrestadorRoute db actorId id).2.prestadores := by
    rw [List.filter_eq_self]
    intro q hq
    simpa using hclean q hq
  obtain ⟨hresp2, hprest2⟩ := deleteRoute_neg _ actorId id hnoref2 hcnt2
  refine ⟨?_, hresp1, ?_, hclean, ?_, hresp2, ?_, ?_⟩
  · refine ⟨{ db with prestadores := db.prestadores.filter (fun q => q.id != id) }, ?_⟩
    rw [deletePrestador_ok_shape db id hnoref]
    simp [hcnt]
  · rw [hresp1]
    rfl
  · refine ⟨{ (deletePrestadorRoute db actorId id).2 with
      prestadores := (deletePrestadorRoute db actorId id).2.prestadores.filter
        (fun q => q.id != id) }, ?_⟩
    rw [deletePrestador_ok_shape _ id hnoref2]
    simp [hcnt2]
  · rw [hresp2]
    rfl
  · rw [hprest2, hself]

/-- Witness for C5 at `freeDb`, where provider `p1` exists and is not
referenced by the fact table. -/
theorem c5_delete_idempotent_witness :
    ((∃ p ∈ freeDb.prestadores, p.id = "p1") ∧
     (∀ r ∈ freeDb.consulta, r.prdPrest ≠ some "p1")) ∧
    ((∃ db1, deletePrestador freeDb "p1" = Except.ok (true, db1)) ∧
     (deletePrestadorRoute freeDb "u1" "p1").1 = DeleteResp.noContent ∧
     deleteRespStatus (deletePrestadorRoute freeDb "u1" "p1").1 = 204 ∧
     (∀ p ∈ (deletePrestadorRoute freeDb "u1" "p1").2.prestadores, p.id ≠ "p1") ∧
     (∃ db2, deletePrestador (deletePrestadorRoute freeDb "u1" "p1").2 "p1" =
       Except.ok (false, db2)) ∧
     (deletePrestadorRoute (deletePrestadorRoute freeDb "u1" "p1").2 "u1" "p1").1 =
       DeleteResp.notFound "Prestador not found" ∧
     deleteRespStatus
       (deletePrestadorRoute (deletePrestadorRoute freeDb "u1" "p1").2 "u1" "p1").1 = 404 ∧
     (deletePrestadorRoute (deletePrestadorRoute freeDb "u1" "p1").2 "u1" "p1").2.prestadores =
       (deletePrestadorRoute freeDb "u1" "p1").2.prestadores) :=
  ⟨⟨⟨samplePrest, by decide, by decide⟩, by decide⟩,
   c5_delete_idempotent freeDb "u1" "p1" ⟨samplePrest, by decide, by decide⟩ (by decide)⟩

/-- C6: creating a CBO whose `codigo` already exists fails (unique
constraint, surfaced by the route as a 400 `Invalid request data`) and
inserts nothing; a create with a fresh code succeeds, returns the row with
its server-generated id and creation timestamp, and the row appears in a
subsequent list call. -/
theorem c6_unique_code_create (db : Db) (actorId : String) (c : InsertCBO)
    (newId : String) (now : Int) :
    ((∃ r ∈ db.cbos, r.codigo = c.codigo) →
      postCboRoute db actorId c newId now =
        (CreateCboResp.badRequest "Invalid request data", db) ∧
      createCboStatus (postCboRoute db actorId c newId now).1 = 400) ∧
    ((∀ r ∈ db.cbos, r.codigo ≠ c.codigo) →
      ∃ row db1, postCboRoute db actorId c newId now = (CreateCboResp.created row, db1) ∧
        createCboStatus (postCboRoute db actorId c newId now).1 = 201 ∧
        row.codigo = c.codigo ∧ row.descricao = c.descricao ∧ row.status = c.status ∧
        row.id = newId ∧ row.createdAt = now ∧
        db1.cbos = db.cbos ++ [row] ∧
        (∀ limit, db.cbos.length + 1 ≤ limit → row ∈ (getCBOs db1 1 limit none).1)) := by
  constructor
  · rintro ⟨r, hr, hcode⟩
    have hdup : db.cbos.any (fun q => q.codigo == c.codigo) = true :=
      List.any_eq_true.mpr ⟨r, hr, by simp [hcode]⟩
    constructor
    · simp [postCboRoute, createCBO, hdup]
    · simp [postCboRoute, createCBO, hdup, createCboStatus]
  · intro hfresh
    have hnodup : db.cbos.any (fun q => q.codigo == c.codigo) = false := by
      rw [List.any_eq_false]
      intro q hq
      simpa using hfresh q hq
    set row : CboRow := { id := newId, codigo := c.codigo, descricao := c.descricao, status := c.status, createdAt := now } with hrow
    have hfst : (postCboRoute db actorId c newId now).1 = CreateCboResp.created row := by
      simp [postCboRoute, createCBO, hnodup, hrow]
    have hcbos : (postCboRoute db actorId c newId now).2.cbos = db.cbos ++ [row] := by
      simp [postCboRoute, createCBO, hnodup, hrow]
    refine ⟨row, (postCboRoute db actorId c newId now).2,
      ?_, ?_, rfl, rfl, rfl, rfl, rfl, hcbos, ?_⟩
    · calc postCboRoute db actorId c newId now
          = ((postCboRoute db actorId c newId now).1,
             (postCboRoute db actorId c newId now).2) := rfl
        _ = (CreateCboResp.created row, (postCboRoute db actorId c newId now).2) := by
            rw [hfst]
    · rw [hfst]
      rfl
    · intro limit hlimit
      have hmem : row ∈ (db.cbos ++ [row]).insertionSort cboCreatedGE := by
        rw [List.mem_insertionSort]
        exact List.mem_append_right _ (List.mem_singleton.mpr rfl)
      have hlen : ((db.cbos ++ [row]).insertionSort cboCreatedGE).length ≤ limit := by
        rw [List.length_insertionSort, List.length_append, List.length_singleton]
        exact hlimit
      simpa [getCBOs, hcbos, List.take_of_length_le hlen] using hmem

/-- Witness for C6: a duplicate of code `225125` fails on `dupDb`, and a
fresh create of the same code succeeds on `sampleDb` (whose CBO table is
empty) and is listed afterwards. -/
theorem c6_unique_code_create_witness :
    ((∃ r ∈ dupDb.cbos, r.codigo = "225125") ∧
     (∀ r ∈ sampleDb.cbos, r.codigo ≠ "225125")) ∧
    (postCboRoute dupDb "u1" { codigo := "225125", descricao := "duplicate" } "c2" 2 =
        (CreateCboResp.badRequest "Invalid request data", dupDb) ∧
      createCboStatus (postCboRoute dupDb "u1"
        { codigo := "225125", descricao := "duplicate" } "c2" 2).1 = 400) ∧
    (∃ row db1, postCboRoute sampleDb "u1"
        { codigo := "225125", descricao := "Medico clinico" } "c9" 7 =
          (CreateCboResp.created row, db1) ∧
      createCboStatus (postCboRoute sampleDb "u1"
        { codigo := "225125", descricao := "Medico clinico" } "c9" 7).1 = 201 ∧
      row.codigo = "225125" ∧ row.descricao = "Medico clinico" ∧ row.status = true ∧
      row.id = "c9" ∧ row.createdAt = 7 ∧
      db1.cbos = sampleDb.cbos ++ [row] ∧
      (∀ limit, sampleDb.cbos.length + 1 ≤ limit →
        row ∈ (getCBOs db1 1 limit none).1)) :=
  ⟨⟨⟨sampleCbo, by decide, by decide⟩, by decide⟩,
   (c6_unique_code_create dupDb "u1"
     { codigo := "225125", descricao := "duplicate" } "c2" 2).1
     ⟨sampleCbo, by decide, by decide⟩,
   (c6_unique_code_create sampleDb "u1"
     { codigo := "225125", descricao := "Medico clinico" } "c9" 7).2 (by decide)⟩

/-- C7 counterexample: a present-but-expired token (signed with the right
secret) is answered 403 `Invalid token`, not 401 — the claim that every
missing/invalid/expired token yields 401 is false on this code. -/
theorem c7_counterexample :
    authenticateToken (some expiredToken) "your-secret-key" 100 =
      AuthOutcome.rejected 403 "Invalid token" ∧
    (∀ m, authenticateToken (some expiredToken) "your-secret-key" 100 ≠
      AuthOutcome.rejected 401 m) := by
  have heq : authenticateToken (some expiredToken) "your-secret-key" 100 =
      AuthOutcome.rejected 403 "Invalid token" := by decide
  refine ⟨heq, ?_⟩
  intro m h
  rw [heq] at h
  injection h with h1 h2
  exact absurd h1 (by decide)

/-- C7 (amended): a missing bearer token is answered 401
`Access token required`; a present token failing verification (bad secret
or expired) is answered 403 `Invalid token`; a verified token proceeds as
its payload; an authenticated principal with insufficient role is also
answered 403 (`requireAdmin`). -/
theorem c7_auth_statuses (token : Option Jwt) (secret : String) (nowMs : Int)
    (p : JwtPayload) :
    (token = none →
      authenticateToken token secret nowMs =
        AuthOutcome.rejected 401 "Access token required") ∧
    (∀ t, token = some t → jwtVerify t secret nowMs = none →
      authenticateToken token secret nowMs = AuthOutcome.rejected 403 "Invalid token") ∧
    (∀ t, token = some t → jwtVerify t secret nowMs = some p →
      authenticateToken token secret nowMs = AuthOutcome.authedAs p) ∧
    (p.role ≠ "admin" → requireAdmin p = some (403, "Admin access required")) := by
  refine ⟨?_, ?_, ?_, ?_⟩
  · rintro rfl
    rfl
  · rintro t rfl hv
    simp [authenticateToken, hv]
  · rintro t rfl hv
    simp [authenticateToken, hv]
  · intro h
    simp [requireAdmin, h]

/-- Witness for C7 (amended): the expired token is answered 403, the absent
token 401. -/
theorem c7_auth_statuses_witness :
    (jwtVerify expiredToken "your-secret-key" 100 = none ∧
     authenticateToken (some expiredToken) "your-secret-key" 100 =
       AuthOutcome.rejected 403 "Invalid token") ∧
    (sampleUserPayload.role ≠ "admin" ∧
     requireAdmin sampleUserPayload = some (403, "Admin access required")) ∧
    authenticateToken none "your-secret-key" 100 =
      AuthOutcome.rejected 401 "Access token required" :=
  ⟨⟨by decide,
    (c7_auth_statuses (some expiredToken) "your-secret-key" 100 sampleUserPayload).2.1
      expiredToken rfl (by decide)⟩,
   ⟨by decide,
    (c7_auth_statuses (some expiredToken) "your-secret-key" 100 sampleUserPayload).2.2.2
      (by decide)⟩,
   (c7_auth_statuses none "your-secret-key" 100 sampleUserPayload).1 rfl⟩

/-- A bcrypt hash is never equal to its own preimage (the hash is seven
characters longer). -/
theorem bcryptHash_ne (p : String) : bcryptHash p ≠ p := by
  intro h
  have hlen := congrArg String.length h
  rw [bcryptHash, String.length_append] at hlen
  have h7 : ("$2b$10$" : String).length = 7 := rfl
  rw [h7] at hlen
  omega

/-- Any sequence of user operations whose updates never supply the empty
string keeps every stored password a bcrypt hash distinct from its
preimage. -/
theorem hashedInv_runUserOps (ops : List UserOp) (db : Db)
    (hdb : ∀ urow ∈ db.users, ∃ p, urow.password = bcryptHash p ∧ urow.password ≠ p)
    (hops : ∀ op ∈ ops, ∀ id uu now, op = UserOp.update id uu now → uu.password ≠ some "") :
    ∀ urow ∈ (runUserOps ops db).users,
      ∃ p, urow.password = bcryptHash p ∧ urow.password ≠ p := by
  induction ops generalizing db with
  | nil => simpa [runUserOps] using hdb
  | cons op rest ih =>
    cases op with
    | create u newId now =>
      simp only [runUserOps]
      refine ih ((createUser db u newId now).2) ?_
        (fun op hop => hops op (List.mem_cons_of_mem _ hop))
      intro urow hurow
      rcases List.mem_append.mp hurow with hmem | hmem
      · exact hdb urow hmem
      · rw [List.mem_singleton] at hmem
        subst hmem
        exact ⟨u.password, rfl, bcryptHash_ne _⟩
    | update id uu now =>
      simp only [runUserOps]
      refine ih ((updateUser db id uu now).2) ?_
        (fun op hop => hops op (List.mem_cons_of_mem _ hop))
      intro urow hurow
      rcases List.mem_map.mp hurow with ⟨r, hr, hrow⟩
      by_cases hid : (r.id == id) = true
      · rw [if_pos hid] at hrow
        subst hrow
        cases hpw : uu.password with
        | none =>
          have : (applyUserUpdate uu now r).password = r.password := by
            simp [applyUserUpdate, hpw]
          rw [this]
          exact hdb r hr
        | some p =>
          have hpne : p ≠ "" := by
            intro hpe
            exact hops _ (List.mem_cons_self _ _) id uu now rfl (by rw [hpw, hpe])
          have : (applyUserUpdate uu now r).password = bcryptHash p := by
            simp [applyUserUpdate, hpw, truthy, hpne]
          rw [this]
          exact ⟨p, rfl, bcryptHash_ne _⟩
      · rw [if_neg hid] at hrow
        subst hrow
        exact hdb r hr

/-- C9 counterexample: starting from a database created through
`createUser`, an `updateUser` supplying the empty-string password (a
supplied password, but falsy) stores it verbatim — the stored value equals
the supplied plaintext and is not its bcrypt hash. -/
theorem c9_counterexample :
    ((updateUser (createUser {} { username := "alice", password := "pw" } "u1" 0).2
        "u1" { password := some "" } 1).2.users.map (fun u => u.password)) = [""] ∧
    bcryptHash "" ≠ "" := by
  exact ⟨by decide, by decide⟩

/-- C9 (amended): `createUser` always stores the bcrypt hash of the supplied
password, `updateUser` stores the bcrypt hash whenever the supplied password
is non-empty, the stored hash never equals the plaintext, and the invariant
holds after every operation sequence whose updates never supply the empty
string. -/
theorem c9_passwords_hashed (db : Db) (ops : List UserOp)
    (hdb : ∀ urow ∈ db.users, ∃ p, urow.password = bcryptHash p ∧ urow.password ≠ p)
    (hops : ∀ op ∈ ops, ∀ id uu now, op = UserOp.update id uu now → uu.password ≠ some "")
    (u : InsertUser) (newId : String) (now : Int) (uu : UpdateUser) (pw : String)
    (row : UserRow) (hpw : uu.password = some pw) (hpwne : pw ≠ "") :
    (createUser db u newId now).1.password = bcryptHash u.password ∧
    (createUser db u newId now).1.password ≠ u.password ∧
    (applyUserUpdate uu now row).password = bcryptHash pw ∧
    (applyUserUpdate uu now row).password ≠ pw ∧
    (∀ urow ∈ (runUserOps ops db).users,
      ∃ p, urow.password = bcryptHash p ∧ urow.password ≠ p) := by
  have hupd : (applyUserUpdate uu now row).password = bcryptHash pw := by
    simp [applyUserUpdate, hpw, truthy, hpwne]
  refine ⟨rfl, bcryptHash_ne _, hupd, ?_, hashedInv_runUserOps ops db hdb hops⟩
  rw [hupd]
  exact bcryptHash_ne _

/-- Witness for C9 (amended) over a concrete create-then-update sequence. -/
theorem c9_passwords_hashed_witness :
    ((∀ urow ∈ (sampleDb : Db).users,
        ∃ p, urow.password = bcryptHash p ∧ urow.password ≠ p) ∧
     (∀ op ∈ ([UserOp.create sampleInsertUser "u1" 0,
               UserOp.update "u1" { password := some "newpw" } 1] : List UserOp),
        ∀ id uu now, op = UserOp.update id uu now → uu.password ≠ some "") ∧
     ({ password := some "newpw" } : UpdateUser).password = some "newpw" ∧
     ("newpw" : String) ≠ "") ∧
    ((createUser sampleDb sampleInsertUser "u1" 0).1.password =
        bcryptHash sampleInsertUser.password ∧
     (createUser sampleDb sampleInsertUser "u1" 0).1.password ≠ sampleInsertUser.password ∧
     (applyUserUpdate { password := some "newpw" } 1
        (createUser sampleDb sampleInsertUser "u1" 0).1).password = bcryptHash "newpw" ∧
     (applyUserUpdate { password := some "newpw" } 1
        (createUser sampleDb sampleInsertUser "u1" 0).1).password ≠ "newpw" ∧
     (∀ urow ∈ (runUserOps [UserOp.create sampleInsertUser "u1" 0,
          UserOp.update "u1" { password := some "newpw" } 1] sampleDb).users,
        ∃ p, urow.password = bcryptHash p ∧ urow.password ≠ p)) := by
  have hdb : ∀ urow ∈ (sampleDb : Db).users,
      ∃ p, urow.password = bcryptHash p ∧ urow.password ≠ p := by
    intro urow hurow
    have hnil : (sampleDb : Db).users = [] := rfl
    rw [hnil] at hurow
    exact absurd hurow (List.not_mem_nil _)
  have hops : ∀ op ∈ ([UserOp.create sampleInsertUser "u1" 0,
      UserOp.update "u1" { password := some "newpw" } 1] : List UserOp),
      ∀ id uu now, op = UserOp.update id uu now → uu.password ≠ some "" := by
    intro op hop id uu now heq
    rcases List.mem_cons.mp hop with h | h
    · subst h
      exact nomatch heq
    · rw [List.mem_singleton] at h
      subst h
      injection heq with h1 h2 h3
      rw [← h2]
      decide
  exact ⟨⟨hdb, hops, rfl, by decide⟩,
    c9_passwords_hashed sampleDb
      [UserOp.create sampleInsertUser "u1" 0,
       UserOp.update "u1" { password := some "newpw" } 1]
      hdb hops sampleInsertUser "u1" 0 { password := some "newpw" } "newpw"
      (createUser sampleDb sampleInsertUser "u1" 0).1 rfl (by decide)⟩

/-- C10: login answers 401 with the same `Invalid credentials` message for
an unknown username, an inactive account, and a wrong password, and issues
a 24-hour JWT carrying id/username/role exactly when the account exists, is
active, and the password matches its stored bcrypt hash. -/
theorem c10_login (db : Db) (username password secret : String) (nowMs : Int)
    (hu : username ≠ "") (hp : password ≠ "") :
    (db.users.find? (fun q => q.username == username) = none →
      loginRoute db username password secret nowMs =
        LoginResp.unauthorized "Invalid credentials" ∧
      loginStatus (loginRoute db username password secret nowMs) = 401) ∧
    (∀ u, db.users.find? (fun q => q.username == username) = some u →
      u.active = false →
      loginRoute db username password secret nowMs =
        LoginResp.unauthorized "Invalid credentials" ∧
      loginStatus (loginRoute db username password secret nowMs) = 401) ∧
    (∀ u, db.users.find? (fun q => q.username == username) = some u →
      u.active = true → bcryptCompare password u.password = false →
      loginRoute db username password secret nowMs =
        LoginResp.unauthorized "Invalid credentials" ∧
      loginStatus (loginRoute db username password secret nowMs) = 401) ∧
    (∀ u, db.users.find? (fun q => q.username == username) = some u →
      u.active = true → bcryptCompare password u.password = true →
      loginRoute db username password secret nowMs =
        LoginResp.ok (jwtSign { id := u.id, username := u.username, role := u.role }
          secret nowMs ms24h) (loginUserBody u) ∧
      (jwtSign { id := u.id, username := u.username, role := u.role }
        secret nowMs ms24h).expMs = nowMs + 86400000 ∧
      loginStatus (loginRoute db username password secret nowMs) = 200) ∧
    (∀ tok body, loginRoute db username password secret nowMs = LoginResp.ok tok body →
      ∃ u, db.users.find? (fun q => q.username == username) = some u ∧
        u.active = true ∧ bcryptCompare password u.password = true ∧
        tok = jwtSign { id := u.id, username := u.username, role := u.role }
          secret nowMs ms24h) := by
  have hne : (username == "") = false := beq_eq_false_iff_ne.mpr hu
  have hpe : (password == "") = false := beq_eq_false_iff_ne.mpr hp
  refine ⟨?_, ?_, ?_, ?_, ?_⟩
  · intro hfind
    constructor
    · simp [loginRoute, hne, hpe, hfind]
    · simp [loginRoute, hne, hpe, hfind, loginStatus]
  · intro u hfind hact
    constructor
    · simp [loginRoute, hne, hpe, hfind, hact]
    · simp [loginRoute, hne, hpe, hfind, hact, loginStatus]
  · intro u hfind hact hcmp
    constructor
    · simp [loginRoute, hne, hpe, hfind, hact, hcmp]
    · simp [loginRoute, hne, hpe, hfind, hact, hcmp, loginStatus]
  · intro u hfind hact hcmp
    refine ⟨?_, rfl, ?_⟩
    · simp [loginRoute, hne, hpe, hfind, hact, hcmp]
    · simp [loginRoute, hne, hpe, hfind, hact, hcmp, loginStatus]
  · intro tok body h
    cases hfind : db.users.find? (fun q => q.username == username) with
    | none =>
      rw [show loginRoute db username password secret nowMs =
          LoginResp.unauthorized "Invalid credentials" by
        simp [loginRoute, hne, hpe, hfind]] at h
      exact nomatch h
    | some u =>
      by_cases hact : u.active = true
      · by_cases hcmp : bcryptCompare password u.password = true
        · refine ⟨u, rfl, hact, hcmp, ?_⟩
          rw [show loginRoute db username password secret nowMs =
              LoginResp.ok (jwtSign { id := u.id, username := u.username, role := u.role }
                secret nowMs ms24h) (loginUserBody u) by
            simp [loginRoute, hne, hpe, hfind, hact, hcmp]] at h
          injection h with h1 h2
          exact h1.symm
        · rw [show loginRoute db username password secret nowMs =
              LoginResp.unauthorized "Invalid credentials" by
            simp [loginRoute, hne, hpe, hfind, hact,
              Bool.eq_false_iff.mpr hcmp]] at h
          exact nomatch h
      · rw [show loginRoute db username password secret nowMs =
            LoginResp.unauthorized "Invalid credentials" by
          simp [loginRoute, hne, hpe, hfind, Bool.eq_false_iff.mpr hact]] at h
        exact nomatch h

/-- Witness for C10 on `loginDb` (one active account `alice` with hashed
password `secret1`): wrong password and unknown username both answer the
same 401 response; the right password yields the 24-hour token. -/
theorem c10_login_witness :
    (("alice" : String) ≠ "" ∧ ("wrong" : String) ≠ "" ∧ ("bob" : String) ≠ "" ∧
     loginDb.users.find? (fun q => q.username == "bob") = none ∧
     loginDb.users.find? (fun q => q.username == "alice") = some aliceRow ∧
     aliceRow.active = true ∧
     bcryptCompare "wrong" aliceRow.password = false ∧
     bcryptCompare "secret1" aliceRow.password = true) ∧
    (loginRoute loginDb "bob" "wrong" "your-secret-key" 0 =
       LoginResp.unauthorized "Invalid credentials" ∧
     loginStatus (loginRoute loginDb "bob" "wrong" "your-secret-key" 0) = 401) ∧
    (loginRoute loginDb "alice" "wrong" "your-secret-key" 0 =
       LoginResp.unauthorized "Invalid credentials" ∧
     loginStatus (loginRoute loginDb "alice" "wrong" "your-secret-key" 0) = 401) ∧
    (loginRoute loginDb "alice" "secret1" "your-secret-key" 0 =
       LoginResp.ok
         (jwtSign { id := aliceRow.id, username := aliceRow.username, role := aliceRow.role }
           "your-secret-key" 0 ms24h)
         (loginUserBody aliceRow) ∧
     (jwtSign { id := aliceRow.id, username := aliceRow.username, role := aliceRow.role }
       "your-secret-key" 0 ms24h).expMs = 0 + 86400000 ∧
     loginStatus (loginRoute loginDb "alice" "secret1" "your-secret-key" 0) = 200) :=
  ⟨⟨by decide, by decide, by decide, by decide, by decide, by decide, by decide, by decide⟩,
   (c10_login loginDb "bob" "wrong" "your-secret-key" 0 (by decide) (by decide)).1
     (by decide),
   (c10_login loginDb "alice" "wrong" "your-secret-key" 0 (by decide) (by decide)).2.2.1
     aliceRow (by decide) (by decide) (by decide),
   (c10_login loginDb "alice" "secret1" "your-secret-key" 0 (by decide) (by decide)).2.2.2.1
     aliceRow (by decide) (by decide) (by decide)⟩

end ConsultaSIA
